import Mathlib

/-!
Verification of the pptx→pdf conversion service (grid composition and
conversion pipeline).

The development shallowly embeds the two source files of the repository:

* the grid layout resolver `getGridLayout`,
* the page composer `mergeSlidesPerPage` (geometry over `ℚ`; JS numbers are
  modelled by exact rationals, so every stated equality/inequality is the
  ideal-arithmetic law the floating-point code approximates),
* the Ghostscript compression stage `compressPdf` with its copy fallback,
* the `/convert` route: parameter parsing and validation, the
  LibreOffice → (optional) merge → compress → download pipeline, and the
  success/catch cleanup paths.

Filesystem and external processes are modelled by an explicit file map
(`FS`), an environment `Env` of external-process results, and an event
trace recording every external invocation, cleanup attempt and delivery.
-/

namespace PptToPdf

/-! ### Constants of the composer (source: mergeSlidesPerPage, lines 104-111)

US-Letter canvas in points and the fixed padding. -/

def pageWidth : ℚ := 612

def pageHeight : ℚ := 792

def padding : ℚ := 10

/-! ### Grid layout resolver (source: getGridLayout, lines 73-82)

The JS object lookup `layouts[slidesPerPage] || {cols: 1, rows: 1}`:
any key outside {2,3,4,6,9} (including 1) falls back to the 1×1 grid.
The argument is an `Int` because the route feeds it a `parseInt` result. -/

def getGridLayout (slidesPerPage : Int) : Nat × Nat :=
  if slidesPerPage = 2 then (1, 2)
  else if slidesPerPage = 3 then (1, 3)
  else if slidesPerPage = 4 then (2, 2)
  else if slidesPerPage = 6 then (2, 3)
  else if slidesPerPage = 9 then (3, 3)
  else (1, 1)

/-- Source line 101: `const cols = grid.cols`. -/
def colsFor (slidesPerPage : Nat) : Nat := (getGridLayout (slidesPerPage : Int)).1

/-- Source line 102: `const rows = grid.rows`. -/
def rowsFor (slidesPerPage : Nat) : Nat := (getGridLayout (slidesPerPage : Int)).2

/-- Source line 110: `(pageWidth - padding * (cols + 1)) / cols`. -/
def slideWidthFor (cols : Nat) : ℚ := (pageWidth - padding * ((cols : ℚ) + 1)) / (cols : ℚ)

/-- Source line 111: `(pageHeight - padding * (rows + 1)) / rows`. -/
def slideHeightFor (rows : Nat) : ℚ := (pageHeight - padding * ((rows : ℚ) + 1)) / (rows : ℚ)

/-- Source line 133: `x = padding + col * (slideWidth + padding)` (left edge of a cell). -/
def cellX (slideWidth : ℚ) (col : Nat) : ℚ := padding + (col : ℚ) * (slideWidth + padding)

/-- Source line 134: `y = pageHeight - (padding + (row + 1) * (slideHeight + padding))`
(bottom edge of a cell, PDF coordinates grow upwards). -/
def cellY (slideHeight : ℚ) (row : Nat) : ℚ :=
  pageHeight - (padding + ((row : ℚ) + 1) * (slideHeight + padding))

/-- One `newPage.drawPage(copiedPage, {x, y, width, height})` call, instrumented
with the intermediate values the loop body computes (source lines 127-158). -/
structure Placement where
  srcIndex : Nat
  col : Nat
  row : Nat
  cellX : ℚ
  cellY : ℚ
  x : ℚ
  y : ℚ
  width : ℚ
  height : ℚ
  scale : ℚ
deriving DecidableEq

/-- The body of the inner loop of `mergeSlidesPerPage` (source lines 127-158):
grid position from the batch index `j`, uniform scale, centering offsets.
`dims` is `copiedPage.getSize()`.  (In ℚ, `a / 0 = 0`; the source divides by
the page dimensions without any zero guard — in JS a zero dimension yields
`Infinity` there.  No claim below depends on the numeric value of `scale` at a
zero dimension, only on the fact that the page is still processed.) -/
def drawSlide (cols rows : Nat) (slideWidth slideHeight : ℚ) (j srcIdx : Nat)
    (dims : ℚ × ℚ) : Placement :=
  let col := j % cols
  let row := j / cols
  let x := cellX slideWidth col
  let y := cellY slideHeight row
  let sourceWidth := dims.1
  let sourceHeight := dims.2
  let scaleX := slideWidth / sourceWidth
  let scaleY := slideHeight / sourceHeight
  let scale := min scaleX scaleY
  let scaledWidth := sourceWidth * scale
  let scaledHeight := sourceHeight * scale
  let offsetX := (slideWidth - scaledWidth) / 2
  let offsetY := (slideHeight - scaledHeight) / 2
  { srcIndex := srcIdx, col := col, row := row, cellX := x, cellY := y,
    x := x + offsetX, y := y + offsetY,
    width := scaledWidth, height := scaledHeight, scale := scale }

/-- The batching loop `for (let i = 0; i < totalPages; i += slidesPerPage)`
together with the inner index collection
`for (let j = 0; j < slidesPerPage && (i + j) < totalPages; j++) pageIndices.push(i + j)`
(source lines 114-121).  Each outer iteration contributes the index list
`[i, i+1, …, i + min slidesPerPage (totalPages - i) - 1]`.  The `fuel`
argument only bounds the recursion (the JS loop performs at most
`totalPages` iterations when `slidesPerPage ≥ 1`); it is not part of the
source semantics. -/
def batchesGo (totalPages slidesPerPage : Nat) : Nat → Nat → List (List Nat)
  | 0, _ => []
  | fuel + 1, i =>
    if i < totalPages then
      List.range' i (min slidesPerPage (totalPages - i)) ::
        batchesGo totalPages slidesPerPage fuel (i + slidesPerPage)
    else []

def batches (totalPages slidesPerPage : Nat) : List (List Nat) :=
  batchesGo totalPages slidesPerPage totalPages 0

/-- One output page: `copyPages` over a batch of source indices, then the
drawing loop over the copied pages (source lines 115-159).  `List.enum`
provides the loop counter `j`; pages are looked up by their source index. -/
def composeBatch (cols rows : Nat) (slideWidth slideHeight : ℚ)
    (pages : List (ℚ × ℚ)) (idxs : List Nat) : List Placement :=
  idxs.enum.map fun ji =>
    drawSlide cols rows slideWidth slideHeight ji.1 ji.2 (pages.getD ji.2 (0, 0))

/-- `mergeSlidesPerPage` (source lines 90-163), as the list of output pages,
each being the list of placements drawn onto it.  A source document is the
list of its page sizes (width, height). -/
def mergeSlidesPerPage (pages : List (ℚ × ℚ)) (slidesPerPage : Nat) :
    List (List Placement) :=
  (batches pages.length slidesPerPage).map
    (composeBatch (colsFor slidesPerPage) (rowsFor slidesPerPage)
      (slideWidthFor (colsFor slidesPerPage)) (slideHeightFor (rowsFor slidesPerPage)) pages)

/-! ### The conversion pipeline model (source lines 20-26, 171-189, 195-330)

The filesystem is a partial map from paths to byte contents; external
processes (LibreOffice, Ghostscript) and the transfer stream are oracles in
an `Env`; the handler records every external invocation, cleanup attempt and
delivery in an event trace. -/

abbrev Bytes := List Nat

abbrev FS := String → Option Bytes

def fsWrite (fs : FS) (p : String) (b : Bytes) : FS :=
  fun q => if q = p then some b else fs q

def fsErase (fs : FS) (p : String) : FS :=
  fun q => if q = p then none else fs q

/-- Observable actions of one request. `delayedCleanup` marks the
`setTimeout`-deferred deletion of the delivered file (source line 318). -/
inductive Event where
  | execLibre (input outdir : String)
  | merge (slidesPerPage : Nat)
  | writeTemp (p : String)
  | execGs (input output : String)
  | copyFallback (input output : String)
  | cleanup (p : String)
  | download (p : String)
  | delayedCleanup (p : String)
deriving DecidableEq

inductive Response where
  | ok (path name : String)
  | clientError (msg : String)
  | serverError (msg : String)
deriving DecidableEq

structure Outcome where
  response : Response
  events : List Event
  fs : FS

structure FileUpload where
  path : String
  originalname : String

structure Request where
  file : Option FileUpload
  bodySpp : Option String
  querySpp : Option String

/-- Results of the external collaborators for one request: LibreOffice
(success flag, diagnostic, the located output path and its bytes — the
probe/scan of source lines 240-280 is abstracted into `foundOutput`),
`mergeSlidesPerPage` viewed as fallible I/O (`PDFDocument.load` can throw),
Ghostscript, and the transfer stream. -/
structure Env where
  libreOk : Bool
  libreErr : String
  foundOutput : Option String
  libreBytes : Bytes
  mergeOk : Bool
  mergeErr : String
  mergedBytes : Bytes
  gsOk : Bool
  gsBytes : Bytes
  downloadOk : Bool

/-- `cleanupFile` (source lines 20-26): check `existsSync`, unlink when
present.  The `Event.cleanup p` entry records the deletion attempt (the
call), made in both branches since the guard is internal to the helper. -/
def cleanupFile (fs : FS) (evs : List Event) (p : String) : FS × List Event :=
  if (fs p).isSome then (fsErase fs p, evs ++ [Event.cleanup p])
  else (fs, evs ++ [Event.cleanup p])

/-- JS `a || b` where `a` is an optional string: absent and `""` are falsy. -/
def jsOr (a : Option String) (b : String) : String :=
  match a with
  | some s => if s = "" then b else s
  | none => b

def digitsVal (cs : List Char) : Option Nat :=
  let ds := cs.takeWhile Char.isDigit
  if ds.isEmpty then none
  else some (ds.foldl (fun a c => a * 10 + (c.toNat - 48)) 0)

/-- Decimal `parseInt` (source line 200): skip leading spaces, optional
sign, longest digit run; `none` models `NaN` (no digits).  Hex prefixes and
exotic whitespace are not modelled; no claim depends on them. -/
def jsParseInt (s : String) : Option Int :=
  match s.data.dropWhile (fun c => c = ' ') with
  | '-' :: t => (digitsVal t).map (fun n => -(n : Int))
  | '+' :: t => (digitsVal t).map (fun n => (n : Int))
  | t => (digitsVal t).map (fun n => (n : Int))

/-- `originalname.replace(/\.pptx$/i, '')` (source line 209): drop one
trailing `.pptx` in any letter case. -/
def stripPptx (s : String) : String :=
  match s.data.reverse with
  | c1 :: c2 :: c3 :: c4 :: c5 :: rest =>
    if (c5 = '.') ∧ (c4 = 'p' ∨ c4 = 'P') ∧ (c3 = 'p' ∨ c3 = 'P') ∧
        (c2 = 't' ∨ c2 = 'T') ∧ (c1 = 'x' ∨ c1 = 'X') then
      String.mk rest.reverse
    else s
  | _ => s

/-- Source line 201: `const validSlidesPerPage = [1, 2, 3, 4, 6, 9]`. -/
def validSlidesPerPage : List Int := [1, 2, 3, 4, 6, 9]

/-- Source line 202: `validSlidesPerPage.includes(slidesPerPage)` (with
`NaN`, i.e. `none`, never a member). -/
def isValidSpp (parsed : Option Int) : Bool :=
  match parsed with
  | some v => validSlidesPerPage.contains v
  | none => false

/-- Source line 200:
`parseInt(req.body.slidesPerPage || req.query.slidesPerPage || '1')`. -/
def requestSpp (req : Request) : Option Int :=
  jsParseInt (jsOr req.bodySpp (jsOr req.querySpp "1"))

/-- `compressPdf` (source lines 171-189): run Ghostscript writing
`outputPath`; on error, `fs.copyFileSync(inputPath, outputPath)` and still
resolve.  Both branches resolve (source lines 182 and 185), so the model is
a total function: compression failure is never propagated. -/
def compressPdf (gsOk : Bool) (gsBytes : Bytes) (fs : FS) (evs : List Event)
    (inputPath outputPath : String) : FS × List Event :=
  if gsOk then
    (fsWrite fs outputPath gsBytes, evs ++ [Event.execGs inputPath outputPath])
  else
    (fsWrite fs outputPath ((fs inputPath).getD []),
      evs ++ [Event.execGs inputPath outputPath, Event.copyFallback inputPath outputPath])

/-- The catch block (source lines 322-328): clean the uploaded input, then
temp/optimized/final if they exist, then report the 500 error.  (It never
names the located LibreOffice output.) -/
def catchBlock (fs : FS) (evs : List Event)
    (inputPath tempPdfPath optimizedPdfPath finalPdfPath msg : String) : Outcome :=
  let s1 := cleanupFile fs evs inputPath
  let s2 := if (s1.1 tempPdfPath).isSome then cleanupFile s1.1 s1.2 tempPdfPath else s1
  let s3 := if (s2.1 optimizedPdfPath).isSome then cleanupFile s2.1 s2.2 optimizedPdfPath
    else s2
  let s4 := if (s3.1 finalPdfPath).isSome then cleanupFile s3.1 s3.2 finalPdfPath else s3
  { response := Response.serverError msg, events := s4.2, fs := s4.1 }

/-- The success-path cleanups (source lines 298-308): always clean the
uploaded input; clean the located LibreOffice output when it exists and is
not the final path; clean the temp composition output when it exists; clean
the (never created) optimized path when it exists and is not the final
path. -/
def successCleanup (fs : FS) (evs : List Event)
    (inputPath libreOfficeOutput tempPdfPath optimizedPdfPath finalPdfPath : String) :
    FS × List Event :=
  let s1 := cleanupFile fs evs inputPath
  let s2 := if (s1.1 libreOfficeOutput).isSome ∧ libreOfficeOutput ≠ finalPdfPath then
      cleanupFile s1.1 s1.2 libreOfficeOutput else s1
  let s3 := if (s2.1 tempPdfPath).isSome then cleanupFile s2.1 s2.2 tempPdfPath else s2
  if (s3.1 optimizedPdfPath).isSome ∧ optimizedPdfPath ≠ finalPdfPath then
    cleanupFile s3.1 s3.2 optimizedPdfPath else s3

/-- Step 3 through delivery of the success path (source lines 294-320):
compress into `finalPdfPath`, the success cleanups of lines 298-308, then
`res.download`; only a successful transfer schedules the delayed deletion
of the final file (lines 313-320) — a transfer error is only logged. -/
def deliverAndCleanup (env : Env) (fs : FS) (evs : List Event)
    (inputPath libreOfficeOutput tempPdfPath optimizedPdfPath finalPdfPath
      pdfToCompress baseFileName : String) : Outcome :=
  let c := compressPdf env.gsOk env.gsBytes fs evs pdfToCompress finalPdfPath
  let s4 := successCleanup c.1 c.2 inputPath libreOfficeOutput tempPdfPath
    optimizedPdfPath finalPdfPath
  let evs2 := s4.2 ++ [Event.download finalPdfPath]
  if env.downloadOk then
    { response := Response.ok finalPdfPath (baseFileName ++ ".pdf"),
      events := evs2 ++ [Event.delayedCleanup finalPdfPath],
      fs := fsErase s4.1 finalPdfPath }
  else
    { response := Response.ok finalPdfPath (baseFileName ++ ".pdf"),
      events := evs2,
      fs := s4.1 }

/-- The POST `/convert` route (source lines 195-330).  `fs0` is the
filesystem as multer left it (the uploaded file already written).  When
LibreOffice succeeds its located output is written at `env.foundOutput`;
when the probe and the directory scan both fail (`foundOutput = none`) the
route throws into the catch block. -/
def convertHandler (env : Env) (req : Request) (fs0 : FS) : Outcome :=
  match req.file with
  | none => { response := Response.clientError "No file uploaded.", events := [], fs := fs0 }
  | some file =>
    if isValidSpp (requestSpp req) then
      let slidesPerPage : Nat := ((requestSpp req).getD 1).toNat
      let inputPath := file.path
      let baseFileName := stripPptx file.originalname
      let tempPdfPath := "converted/" ++ baseFileName ++ "_temp.pdf"
      let optimizedPdfPath := "converted/" ++ baseFileName ++ "_optimized.pdf"
      let finalPdfPath := "converted/" ++ baseFileName ++ ".pdf"
      let evs := [Event.execLibre inputPath "converted"]
      if env.libreOk then
        match env.foundOutput with
        | some libreOfficeOutput =>
          let fs1 := fsWrite fs0 libreOfficeOutput env.libreBytes
          if slidesPerPage > 1 then
            let evs := evs ++ [Event.merge slidesPerPage]
            if env.mergeOk then
              let fs2 := fsWrite fs1 tempPdfPath env.mergedBytes
              let evs := evs ++ [Event.writeTemp tempPdfPath]
              deliverAndCleanup env fs2 evs inputPath libreOfficeOutput tempPdfPath
                optimizedPdfPath finalPdfPath tempPdfPath baseFileName
            else
              catchBlock fs1 evs inputPath tempPdfPath optimizedPdfPath finalPdfPath
                env.mergeErr
          else
            deliverAndCleanup env fs1 evs inputPath libreOfficeOutput tempPdfPath
              optimizedPdfPath finalPdfPath libreOfficeOutput baseFileName
        | none =>
          catchBlock fs0 evs inputPath tempPdfPath optimizedPdfPath finalPdfPath
            "Converted PDF not found."
      else
        catchBlock fs0 evs inputPath tempPdfPath optimizedPdfPath finalPdfPath
          ("LibreOffice conversion failed: " ++ env.libreErr)
    else
      let s := cleanupFile fs0 [] file.path
      { response := Response.clientError "Invalid slidesPerPage. Must be 1, 2, 3, 4, 6, or 9.",
        events := s.2, fs := s.1 }

/-! ### Concrete sample data for witnesses and counterexamples -/

def sampleReq (spp : Option String) : Request :=
  { file := some { path := "uploads/u1", originalname := "Deck.pptx" },
    bodySpp := spp, querySpp := none }

def sampleEnv : Env :=
  { libreOk := true, libreErr := "", foundOutput := some "converted/Deck.pdf",
    libreBytes := [1, 2], mergeOk := true, mergeErr := "merge failed",
    mergedBytes := [3, 4], gsOk := true, gsBytes := [5], downloadOk := true }

def sampleFS : FS := fun p => if p = "uploads/u1" then some [9] else none

/-- A run whose LibreOffice output was located by the directory-scan
fallback under a sanitized name (distinct from every path the catch block
cleans), after which composition fails. -/
def envC5 : Env :=
  { libreOk := true, libreErr := "", foundOutput := some "converted/Deck 2.pdf",
    libreBytes := [1, 2, 3], mergeOk := false, mergeErr := "Failed to parse PDF document",
    mergedBytes := [], gsOk := true, gsBytes := [7], downloadOk := true }

def reqC5 : Request :=
  { file := some { path := "uploads/x1", originalname := "Deck.pptx" },
    bodySpp := some "4", querySpp := none }

def fsC5 : FS := fun p => if p = "uploads/x1" then some [9] else none

/-- A run in which the transfer stream reports an error (`downloadOk = false`). -/
def envC9 : Env :=
  { libreOk := true, libreErr := "", foundOutput := some "converted/Deck.pdf",
    libreBytes := [1], mergeOk := true, mergeErr := "", mergedBytes := [2],
    gsOk := true, gsBytes := [5], downloadOk := false }

def reqC9 : Request :=
  { file := some { path := "uploads/x2", originalname := "Deck.pptx" },
    bodySpp := some "1", querySpp := none }

def fsC9 : FS := fun p => if p = "uploads/x2" then some [8] else none

/-! ### Lemmas about the batching loop -/

theorem batchesGo_length (P K : Nat) (hK : 0 < K) :
    ∀ fuel i, P - i ≤ fuel → (batchesGo P K fuel i).length = (P - i + K - 1) / K := by
  intro fuel
  induction fuel with
  | zero =>
    intro i h
    have h0 : P - i = 0 := by omega
    rw [batchesGo, List.length_nil, h0]
    rw [Nat.zero_add]
    exact (Nat.div_eq_of_lt (by omega)).symm
  | succ fuel ih =>
    intro i h
    by_cases hi : i < P
    · rw [batchesGo, if_pos hi, List.length_cons, ih (i + K) (by omega)]
      rcases le_or_lt K (P - i) with h2 | h2
      · have e1 : P - (i + K) + K - 1 = P - i - 1 := by omega
        have e2 : P - i + K - 1 = (P - i - 1) + K := by omega
        rw [e1, e2, Nat.add_div_right _ hK]
      · have e1 : P - (i + K) = 0 := by omega
        have e2 : P - i + K - 1 = (P - i - 1) + K := by omega
        rw [e1, Nat.zero_add, e2, Nat.add_div_right _ hK,
          Nat.div_eq_of_lt (by omega : K - 1 < K),
          Nat.div_eq_of_lt (by omega : P - i - 1 < K)]
    · have h0 : P - i = 0 := by omega
      rw [batchesGo, if_neg hi, List.length_nil, h0, Nat.zero_add]
      exact (Nat.div_eq_of_lt (by omega)).symm

theorem batchesGo_flatten (P K : Nat) (hK : 0 < K) :
    ∀ fuel i, P - i ≤ fuel → (batchesGo P K fuel i).flatten = List.range' i (P - i) := by
  intro fuel
  induction fuel with
  | zero =>
    intro i h
    have h0 : P - i = 0 := by omega
    rw [batchesGo, h0]
    simp
  | succ fuel ih =>
    intro i h
    by_cases hi : i < P
    · rw [batchesGo, if_pos hi, List.flatten_cons, ih (i + K) (by omega)]
      rcases le_or_lt K (P - i) with h2 | h2
      · rw [min_eq_left h2]
        have e1 : P - (i + K) = P - i - K := by omega
        have e2 : i + K = i + 1 * K := by omega
        have e3 : P - i - K + K = P - i := by omega
        rw [e1, e2, List.range'_append, e3]
      · rw [min_eq_right h2.le]
        have e1 : P - (i + K) = 0 := by omega
        rw [e1]
        simp
    · have h0 : P - i = 0 := by omega
      rw [batchesGo, if_neg hi, h0]
      simp

theorem composeBatch_srcIndex (c r : Nat) (sw sh : ℚ) (pages : List (ℚ × ℚ))
    (idxs : List Nat) :
    (composeBatch c r sw sh pages idxs).map Placement.srcIndex = idxs := by
  unfold composeBatch
  rw [List.map_map]
  have hfun : (Placement.srcIndex ∘ fun ji : Nat × Nat =>
      drawSlide c r sw sh ji.1 ji.2 (pages.getD ji.2 (0, 0))) = Prod.snd := by
    funext ji; rfl
  rw [hfun, List.enum_map_snd]

/-- C1: for every source document of `P` pages and every supported
`slidesPerPage` `K ∈ {2,3,4,6,9}`, `mergeSlidesPerPage` produces exactly
`⌈P / K⌉ = (P + K - 1) / K` output pages, and the source indices drawn onto
the output pages, concatenated in batch order, are exactly `0, …, P-1`
(source pages 1..P), each exactly once and in original order. -/
theorem mergeSlidesPerPage_batching (K : Nat) (hK : K ∈ ([2, 3, 4, 6, 9] : List Nat))
    (pages : List (ℚ × ℚ)) :
    (mergeSlidesPerPage pages K).length = (pages.length + K - 1) / K ∧
    ((mergeSlidesPerPage pages K).map (fun b => b.map Placement.srcIndex)).flatten
      = List.range pages.length := by
  have hK0 : 0 < K := by fin_cases hK <;> decide
  constructor
  · unfold mergeSlidesPerPage batches
    rw [List.length_map, batchesGo_length _ _ hK0 _ 0 (by omega), Nat.sub_zero]
  · unfold mergeSlidesPerPage batches
    rw [List.map_map]
    have hmap : ∀ idxs ∈ batchesGo pages.length K pages.length 0,
        ((fun b : List Placement => b.map Placement.srcIndex) ∘
          composeBatch (colsFor K) (rowsFor K) (slideWidthFor (colsFor K))
            (slideHeightFor (rowsFor K)) pages) idxs = (fun l : List Nat => l) idxs := by
      intro idxs _
      exact composeBatch_srcIndex _ _ _ _ _ _
    rw [List.map_congr_left hmap, List.map_id',
      batchesGo_flatten _ _ hK0 _ 0 (by omega), Nat.sub_zero, List.range_eq_range']

/-- C1 witness: a concrete 5-page document at `slidesPerPage = 2` gives
`⌈5/2⌉ = 3` output pages covering the sources in order. -/
theorem mergeSlidesPerPage_batching_witness :
    (2 ∈ ([2, 3, 4, 6, 9] : List Nat)) ∧
    ((mergeSlidesPerPage [(10, 10), (20, 30), (7, 7), (612, 792), (1, 2)] 2).length
        = (5 + 2 - 1) / 2 ∧
      ((mergeSlidesPerPage [(10, 10), (20, 30), (7, 7), (612, 792), (1, 2)] 2).map
          (fun b => b.map Placement.srcIndex)).flatten = List.range 5) :=
  ⟨by decide, mergeSlidesPerPage_batching 2 (by decide)
    [(10, 10), (20, 30), (7, 7), (612, 792), (1, 2)]⟩

/-- C3: the grid resolver is a pure function mapping 1↦(1,1), 2↦(1,2),
3↦(1,3), 4↦(2,2), 6↦(2,3), 9↦(3,3); every other input gets the default
(1,1) grid; and every supported input `n` satisfies `columns * rows ≥ n`. -/
theorem getGridLayout_spec :
    getGridLayout 1 = (1, 1) ∧ getGridLayout 2 = (1, 2) ∧ getGridLayout 3 = (1, 3) ∧
    getGridLayout 4 = (2, 2) ∧ getGridLayout 6 = (2, 3) ∧ getGridLayout 9 = (3, 3) ∧
    (∀ n : Int, n ∉ ([1, 2, 3, 4, 6, 9] : List Int) → getGridLayout n = (1, 1)) ∧
    (∀ n : Int, n ∈ ([1, 2, 3, 4, 6, 9] : List Int) →
      n ≤ ((getGridLayout n).1 * (getGridLayout n).2 : Nat)) := by
  refine ⟨by decide, by decide, by decide, by decide, by decide, by decide, ?_, ?_⟩
  · intro n hn
    simp only [List.mem_cons, List.not_mem_nil, or_false, not_or] at hn
    obtain ⟨h1, h2, h3, h4, h6, h9⟩ := hn
    simp [getGridLayout, h2, h3, h4, h6, h9]
  · intro n hn
    fin_cases hn <;> decide

/-- C3 witness: the default branch at the unsupported value 5, and the
`columns * rows ≥ n` bound at the supported value 6. -/
theorem getGridLayout_spec_witness :
    ((5 : Int) ∉ ([1, 2, 3, 4, 6, 9] : List Int) ∧ getGridLayout 5 = (1, 1)) ∧
    ((6 : Int) ∈ ([1, 2, 3, 4, 6, 9] : List Int) ∧
      (6 : Int) ≤ ((getGridLayout 6).1 * (getGridLayout 6).2 : Nat)) :=
  ⟨⟨by decide, getGridLayout_spec.2.2.2.2.2.2.1 5 (by decide)⟩,
   ⟨by decide, getGridLayout_spec.2.2.2.2.2.2.2 6 (by decide)⟩⟩

/-! ### Scaling and centering (source lines 137-158) -/

/-- C2: a source page of positive size `(w, h)` placed into a cell of size
`(cw, ch)` gets the uniform scale `min (cw/w) (ch/h)`; the scaled page fits
the cell (`width ≤ cw`, `height ≤ ch`), keeps its aspect ratio
(`width * h = height * w`), and is drawn centered in its cell with offset
`(cellDimension - scaledDimension) / 2` on each axis. -/
theorem drawSlide_scale_centered (cols rows j srcIdx : Nat) (cw ch w h : ℚ)
    (hw : 0 < w) (hh : 0 < h) :
    (drawSlide cols rows cw ch j srcIdx (w, h)).scale = min (cw / w) (ch / h) ∧
    (drawSlide cols rows cw ch j srcIdx (w, h)).width
      = w * (drawSlide cols rows cw ch j srcIdx (w, h)).scale ∧
    (drawSlide cols rows cw ch j srcIdx (w, h)).height
      = h * (drawSlide cols rows cw ch j srcIdx (w, h)).scale ∧
    (drawSlide cols rows cw ch j srcIdx (w, h)).width ≤ cw ∧
    (drawSlide cols rows cw ch j srcIdx (w, h)).height ≤ ch ∧
    (drawSlide cols rows cw ch j srcIdx (w, h)).width * h
      = (drawSlide cols rows cw ch j srcIdx (w, h)).height * w ∧
    (drawSlide cols rows cw ch j srcIdx (w, h)).x
      = cellX cw (j % cols)
        + (cw - (drawSlide cols rows cw ch j srcIdx (w, h)).width) / 2 ∧
    (drawSlide cols rows cw ch j srcIdx (w, h)).y
      = cellY ch (j / cols)
        + (ch - (drawSlide cols rows cw ch j srcIdx (w, h)).height) / 2 := by
  refine ⟨rfl, rfl, rfl, ?_, ?_, ?_, rfl, rfl⟩
  · show w * min (cw / w) (ch / h) ≤ cw
    calc w * min (cw / w) (ch / h) ≤ w * (cw / w) :=
          mul_le_mul_of_nonneg_left (min_le_left _ _) hw.le
      _ = cw := by rw [mul_comm, div_mul_cancel₀ _ hw.ne']
  · show h * min (cw / w) (ch / h) ≤ ch
    calc h * min (cw / w) (ch / h) ≤ h * (ch / h) :=
          mul_le_mul_of_nonneg_left (min_le_right _ _) hh.le
      _ = ch := by rw [mul_comm, div_mul_cancel₀ _ hh.ne']
  · show w * min (cw / w) (ch / h) * h = h * min (cw / w) (ch / h) * w
    ring

/-- C2 witness: a 2×2 cell grid, cell 592×186, page 800×600. -/
theorem drawSlide_scale_centered_witness :
    (0 : ℚ) < 800 ∧ (0 : ℚ) < 600 ∧
    ((drawSlide 2 2 592 186 1 1 (800, 600)).scale = min (592 / 800) (186 / 600) ∧
      (drawSlide 2 2 592 186 1 1 (800, 600)).width
        = 800 * (drawSlide 2 2 592 186 1 1 (800, 600)).scale ∧
      (drawSlide 2 2 592 186 1 1 (800, 600)).height
        = 600 * (drawSlide 2 2 592 186 1 1 (800, 600)).scale ∧
      (drawSlide 2 2 592 186 1 1 (800, 600)).width ≤ 592 ∧
      (drawSlide 2 2 592 186 1 1 (800, 600)).height ≤ 186 ∧
      (drawSlide 2 2 592 186 1 1 (800, 600)).width * 600
        = (drawSlide 2 2 592 186 1 1 (800, 600)).height * 800 ∧
      (drawSlide 2 2 592 186 1 1 (800, 600)).x
        = cellX 592 (1 % 2) + (592 - (drawSlide 2 2 592 186 1 1 (800, 600)).width) / 2 ∧
      (drawSlide 2 2 592 186 1 1 (800, 600)).y
        = cellY 186 (1 / 2) + (186 - (drawSlide 2 2 592 186 1 1 (800, 600)).height) / 2) := by
  have h800 : (0 : ℚ) < 800 := by norm_num
  have h600 : (0 : ℚ) < 600 := by norm_num
  exact ⟨h800, h600, drawSlide_scale_centered 2 2 1 1 592 186 800 600 h800 h600⟩

/-! ### Cell geometry lemmas for the tiling property (C7) -/

theorem slideWidthFor_mul (c : Nat) (hc : 0 < c) :
    (c : ℚ) * slideWidthFor c = pageWidth - padding * ((c : ℚ) + 1) := by
  unfold slideWidthFor
  rw [mul_comm, div_mul_cancel₀]
  exact Nat.cast_ne_zero.mpr hc.ne'

theorem slideHeightFor_mul (r : Nat) (hr : 0 < r) :
    (r : ℚ) * slideHeightFor r = pageHeight - padding * ((r : ℚ) + 1) := by
  unfold slideHeightFor
  rw [mul_comm, div_mul_cancel₀]
  exact Nat.cast_ne_zero.mpr hr.ne'

theorem slideWidthFor_pos (c : Nat) (hc : 0 < c) (hc3 : c ≤ 3) :
    0 < slideWidthFor c := by
  unfold slideWidthFor pageWidth padding
  apply div_pos
  · have h3 : (c : ℚ) ≤ 3 := by exact_mod_cast hc3
    linarith
  · exact_mod_cast hc

theorem slideHeightFor_pos (r : Nat) (hr : 0 < r) (hr3 : r ≤ 3) :
    0 < slideHeightFor r := by
  unfold slideHeightFor pageHeight padding
  apply div_pos
  · have h3 : (r : ℚ) ≤ 3 := by exact_mod_cast hr3
    linarith
  · exact_mod_cast hr

theorem cellX_nonneg (sw : ℚ) (hsw : 0 ≤ sw) (c : Nat) : 0 ≤ cellX sw c := by
  unfold cellX padding
  have hc : (0 : ℚ) ≤ (c : ℚ) := Nat.cast_nonneg c
  nlinarith [mul_nonneg hc (by linarith : (0 : ℚ) ≤ sw + 10)]

theorem cellX_add_le (c cols : Nat) (hcol : c < cols) (hc : 0 < cols)
    (hsw : 0 ≤ slideWidthFor cols) :
    cellX (slideWidthFor cols) c + slideWidthFor cols ≤ pageWidth := by
  have hmul := slideWidthFor_mul cols hc
  have hcast : (c : ℚ) + 1 ≤ (cols : ℚ) := by exact_mod_cast hcol
  unfold cellX pageWidth padding at *
  nlinarith [mul_nonneg (by linarith : (0 : ℚ) ≤ (cols : ℚ) - 1 - (c : ℚ))
    (by linarith : (0 : ℚ) ≤ slideWidthFor cols + 10)]

theorem cellY_nonneg (r rows : Nat) (hrow : r < rows) (hr : 0 < rows)
    (hsh : 0 ≤ slideHeightFor rows) :
    0 ≤ cellY (slideHeightFor rows) r := by
  have hmul := slideHeightFor_mul rows hr
  have hcast : (r : ℚ) + 1 ≤ (rows : ℚ) := by exact_mod_cast hrow
  unfold cellY pageHeight padding at *
  nlinarith [mul_nonneg (by linarith : (0 : ℚ) ≤ (rows : ℚ) - 1 - (r : ℚ))
    (by linarith : (0 : ℚ) ≤ slideHeightFor rows + 10)]

theorem cellY_add_le (sh : ℚ) (hsh : 0 ≤ sh) (r : Nat) :
    cellY sh r + sh ≤ pageHeight := by
  unfold cellY pageHeight padding
  have hr : (0 : ℚ) ≤ (r : ℚ) := Nat.cast_nonneg r
  nlinarith [mul_nonneg hr (by linarith : (0 : ℚ) ≤ sh + 10)]

theorem cellX_disjoint (sw : ℚ) (hsw : 0 ≤ sw) {c c' : Nat} (h : c < c') :
    cellX sw c + sw ≤ cellX sw c' := by
  have hcast : (c : ℚ) + 1 ≤ (c' : ℚ) := by exact_mod_cast h
  unfold cellX padding
  nlinarith [mul_nonneg (by linarith : (0 : ℚ) ≤ (c' : ℚ) - (c : ℚ) - 1)
    (by linarith : (0 : ℚ) ≤ sw + 10)]

theorem cellY_disjoint (sh : ℚ) (hsh : 0 ≤ sh) {r r' : Nat} (h : r < r') :
    cellY sh r' + sh ≤ cellY sh r := by
  have hcast : (r : ℚ) + 1 ≤ (r' : ℚ) := by exact_mod_cast h
  unfold cellY padding
  nlinarith [mul_nonneg (by linarith : (0 : ℚ) ≤ (r' : ℚ) - (r : ℚ) - 1)
    (by linarith : (0 : ℚ) ≤ sh + 10)]

theorem cellY_strict_anti (sh : ℚ) (hsh : 0 ≤ sh) {r r' : Nat} (h : r < r') :
    cellY sh r' < cellY sh r := by
  have hcast : (r : ℚ) + 1 ≤ (r' : ℚ) := by exact_mod_cast h
  unfold cellY padding
  nlinarith [mul_nonneg (by linarith : (0 : ℚ) ≤ (r' : ℚ) - (r : ℚ) - 1)
    (by linarith : (0 : ℚ) ≤ sh + 10)]

theorem grid_geometry_aux (K cols rows : Nat) (hc : 0 < cols) (hc3 : cols ≤ 3)
    (hr : 0 < rows) (hr3 : rows ≤ 3) (hKle : K ≤ cols * rows) :
    (∀ j, j < K →
      0 ≤ cellX (slideWidthFor cols) (j % cols) ∧
      cellX (slideWidthFor cols) (j % cols) + slideWidthFor cols ≤ pageWidth ∧
      0 ≤ cellY (slideHeightFor rows) (j / cols) ∧
      cellY (slideHeightFor rows) (j / cols) + slideHeightFor rows ≤ pageHeight) ∧
    (∀ j j', j < K → j' < K → j ≠ j' →
      cellX (slideWidthFor cols) (j % cols) + slideWidthFor cols
        ≤ cellX (slideWidthFor cols) (j' % cols) ∨
      cellX (slideWidthFor cols) (j' % cols) + slideWidthFor cols
        ≤ cellX (slideWidthFor cols) (j % cols) ∨
      cellY (slideHeightFor rows) (j / cols) + slideHeightFor rows
        ≤ cellY (slideHeightFor rows) (j' / cols) ∨
      cellY (slideHeightFor rows) (j' / cols) + slideHeightFor rows
        ≤ cellY (slideHeightFor rows) (j / cols)) := by
  have hsw := (slideWidthFor_pos cols hc hc3).le
  have hsh := (slideHeightFor_pos rows hr hr3).le
  constructor
  · intro j hj
    have hmod : j % cols < cols := Nat.mod_lt _ hc
    have hdiv : j / cols < rows := Nat.div_lt_of_lt_mul (by omega)
    exact ⟨cellX_nonneg _ hsw _, cellX_add_le _ _ hmod hc hsw,
      cellY_nonneg _ _ hdiv hr hsh, cellY_add_le _ hsh _⟩
  · intro j j' _ _ hne
    rcases Nat.lt_trichotomy (j % cols) (j' % cols) with hx | hx | hx
    · exact Or.inl (cellX_disjoint _ hsw hx)
    · have h1 := Nat.div_add_mod j cols
      have h2 := Nat.div_add_mod j' cols
      have hrowne : j / cols ≠ j' / cols := by
        intro hEq
        apply hne
        calc j = cols * (j / cols) + j % cols := (Nat.div_add_mod j cols).symm
          _ = cols * (j' / cols) + j' % cols := by rw [hx, hEq]
          _ = j' := Nat.div_add_mod j' cols
      rcases Nat.lt_or_ge (j / cols) (j' / cols) with hy | hy
      · exact Or.inr (Or.inr (Or.inr (cellY_disjoint _ hsh hy)))
      · have hy' : j' / cols < j / cols := by omega
        exact Or.inr (Or.inr (Or.inl (cellY_disjoint _ hsh hy')))
    · exact Or.inr (Or.inl (cellX_disjoint _ hsw hx))

/-- C7: within a batch, page `j` goes to column `j % cols` and row
`j / cols` (row-major), the cell sizes are
`(canvas - padding*(cols+1)) / cols` (resp. rows), and the cell rectangles
of one output page lie inside the 612×792 canvas, are pairwise disjoint,
and fill rows top-first (the row index is monotone in `j`, and a larger row
index sits strictly lower on the page). -/
theorem grid_cells_tile_canvas (K : Nat) (hK : K ∈ ([2, 3, 4, 6, 9] : List Nat)) :
    (∀ j srcIdx dims,
      (drawSlide (colsFor K) (rowsFor K) (slideWidthFor (colsFor K))
          (slideHeightFor (rowsFor K)) j srcIdx dims).col = j % colsFor K ∧
      (drawSlide (colsFor K) (rowsFor K) (slideWidthFor (colsFor K))
          (slideHeightFor (rowsFor K)) j srcIdx dims).row = j / colsFor K ∧
      (drawSlide (colsFor K) (rowsFor K) (slideWidthFor (colsFor K))
          (slideHeightFor (rowsFor K)) j srcIdx dims).cellX
        = cellX (slideWidthFor (colsFor K)) (j % colsFor K) ∧
      (drawSlide (colsFor K) (rowsFor K) (slideWidthFor (colsFor K))
          (slideHeightFor (rowsFor K)) j srcIdx dims).cellY
        = cellY (slideHeightFor (rowsFor K)) (j / colsFor K)) ∧
    slideWidthFor (colsFor K)
      = (pageWidth - padding * ((colsFor K : ℚ) + 1)) / (colsFor K : ℚ) ∧
    slideHeightFor (rowsFor K)
      = (pageHeight - padding * ((rowsFor K : ℚ) + 1)) / (rowsFor K : ℚ) ∧
    (∀ j, j < K →
      0 ≤ cellX (slideWidthFor (colsFor K)) (j % colsFor K) ∧
      cellX (slideWidthFor (colsFor K)) (j % colsFor K) + slideWidthFor (colsFor K)
        ≤ pageWidth ∧
      0 ≤ cellY (slideHeightFor (rowsFor K)) (j / colsFor K) ∧
      cellY (slideHeightFor (rowsFor K)) (j / colsFor K) + slideHeightFor (rowsFor K)
        ≤ pageHeight) ∧
    (∀ j j', j < K → j' < K → j ≠ j' →
      cellX (slideWidthFor (colsFor K)) (j % colsFor K) + slideWidthFor (colsFor K)
        ≤ cellX (slideWidthFor (colsFor K)) (j' % colsFor K) ∨
      cellX (slideWidthFor (colsFor K)) (j' % colsFor K) + slideWidthFor (colsFor K)
        ≤ cellX (slideWidthFor (colsFor K)) (j % colsFor K) ∨
      cellY (slideHeightFor (rowsFor K)) (j / colsFor K) + slideHeightFor (rowsFor K)
        ≤ cellY (slideHeightFor (rowsFor K)) (j' / colsFor K) ∨
      cellY (slideHeightFor (rowsFor K)) (j' / colsFor K) + slideHeightFor (rowsFor K)
        ≤ cellY (slideHeightFor (rowsFor K)) (j / colsFor K)) ∧
    (∀ j j' : Nat, j ≤ j' → j / colsFor K ≤ j' / colsFor K) ∧
    (∀ j j' : Nat, j / colsFor K < j' / colsFor K →
      cellY (slideHeightFor (rowsFor K)) (j' / colsFor K)
        < cellY (slideHeightFor (rowsFor K)) (j / colsFor K)) := by
  have hfacts : 0 < colsFor K ∧ colsFor K ≤ 3 ∧ 0 < rowsFor K ∧ rowsFor K ≤ 3 ∧
      K ≤ colsFor K * rowsFor K := by
    fin_cases hK <;> decide
  obtain ⟨hc, hc3, hr, hr3, hKle⟩ := hfacts
  obtain ⟨hcanvas, hdisj⟩ := grid_geometry_aux K (colsFor K) (rowsFor K) hc hc3 hr hr3 hKle
  refine ⟨fun j srcIdx dims => ⟨rfl, rfl, rfl, rfl⟩, rfl, rfl, hcanvas, hdisj, ?_, ?_⟩
  · intro j j' hjj
    exact Nat.div_le_div_right hjj
  · intro j j' h
    exact cellY_strict_anti _ (slideHeightFor_pos _ hr hr3).le h

/-- C7 witness: pairwise cell disjointness at `slidesPerPage = 4`. -/
theorem grid_cells_tile_canvas_witness :
    (4 ∈ ([2, 3, 4, 6, 9] : List Nat)) ∧
    (∀ j j', j < 4 → j' < 4 → j ≠ j' →
      cellX (slideWidthFor (colsFor 4)) (j % colsFor 4) + slideWidthFor (colsFor 4)
        ≤ cellX (slideWidthFor (colsFor 4)) (j' % colsFor 4) ∨
      cellX (slideWidthFor (colsFor 4)) (j' % colsFor 4) + slideWidthFor (colsFor 4)
        ≤ cellX (slideWidthFor (colsFor 4)) (j % colsFor 4) ∨
      cellY (slideHeightFor (rowsFor 4)) (j / colsFor 4) + slideHeightFor (rowsFor 4)
        ≤ cellY (slideHeightFor (rowsFor 4)) (j' / colsFor 4) ∨
      cellY (slideHeightFor (rowsFor 4)) (j' / colsFor 4) + slideHeightFor (rowsFor 4)
        ≤ cellY (slideHeightFor (rowsFor 4)) (j / colsFor 4)) :=
  ⟨by decide, (grid_cells_tile_canvas 4 (by decide)).2.2.2.2.1⟩

/-! ### Zero-dimension pages (C8) -/

/-- C8 counterexample: the composer has no zero-dimension guard.  A one-page
document whose single page has width 0 is neither skipped nor rejected at
`slidesPerPage = 2`: composition succeeds with one output page onto which
that source page is drawn.  (The scale expression `slideWidth / sourceWidth`
of source line 142 is evaluated unconditionally; in JS it yields `Infinity`
at width 0 rather than an error.) -/
theorem zero_width_page_still_drawn :
    (mergeSlidesPerPage [((0 : ℚ), 720)] 2).length = 1 ∧
    ((mergeSlidesPerPage [((0 : ℚ), 720)] 2).map
        (fun b => b.map Placement.srcIndex)).flatten = [0] := by
  constructor <;> rfl

/-- C8 amended: the composer performs no zero-dimension check.  Every source
page — including pages of zero width or height — flows through the same
scale computation and is drawn exactly once; composition never skips a page
and never fails. -/
theorem merge_processes_all_pages_no_guard (K : Nat)
    (hK : K ∈ ([2, 3, 4, 6, 9] : List Nat)) (pages : List (ℚ × ℚ)) :
    ∀ i, i < pages.length →
      ((mergeSlidesPerPage pages K).flatten.map Placement.srcIndex).count i = 1 := by
  intro i hi
  have hjoin := (mergeSlidesPerPage_batching K hK pages).2
  rw [List.map_flatten, hjoin]
  exact List.count_eq_one_of_mem (List.nodup_range _) (List.mem_range.mpr hi)

/-- C8 amended witness: a document containing a zero-width page and a
zero-height page; each is drawn exactly once. -/
theorem merge_processes_all_pages_no_guard_witness :
    (2 ∈ ([2, 3, 4, 6, 9] : List Nat)) ∧ 0 < ([((0 : ℚ), 720), (10, 0)] : List (ℚ × ℚ)).length ∧
    ((mergeSlidesPerPage [((0 : ℚ), 720), (10, 0)] 2).flatten.map Placement.srcIndex).count 0 = 1 :=
  ⟨by decide, by decide,
    merge_processes_all_pages_no_guard 2 (by decide) [((0 : ℚ), 720), (10, 0)] 0 (by decide)⟩

/-! ### Lemmas about cleanup, compression and delivery -/

theorem cleanupFile_fs_ne (fs : FS) (evs : List Event) (p q : String) (h : ¬ p = q) :
    (cleanupFile fs evs p).1 q = fs q := by
  unfold cleanupFile
  split
  · show (if q = p then none else fs q) = fs q
    rw [if_neg (fun hq : q = p => h hq.symm)]
  · rfl

theorem cleanupFile_events (fs : FS) (evs : List Event) (p : String) :
    (cleanupFile fs evs p).2 = evs ++ [Event.cleanup p] := by
  unfold cleanupFile
  split <;> rfl

theorem successCleanup_fs_fin (fs : FS) (evs : List Event)
    (inp lo tmp opt fin : String) (hinp : ¬ inp = fin) (htmp : ¬ tmp = fin) :
    (successCleanup fs evs inp lo tmp opt fin).1 fin = fs fin := by
  unfold successCleanup
  dsimp only
  split_ifs <;> simp_all [cleanupFile_fs_ne]

theorem successCleanup_events_shape (fs : FS) (evs : List Event)
    (inp lo tmp opt fin : String) :
    ∀ e ∈ (successCleanup fs evs inp lo tmp opt fin).2,
      e ∈ evs ∨ ∃ p, e = Event.cleanup p := by
  unfold successCleanup
  dsimp only
  split_ifs <;> intro e he <;>
    simp only [cleanupFile_events, List.mem_append, List.mem_singleton] at he <;>
    tauto

theorem successCleanup_events_prefix (fs : FS) (evs : List Event)
    (inp lo tmp opt fin : String) :
    ∃ cl, (successCleanup fs evs inp lo tmp opt fin).2 = evs ++ cl := by
  unfold successCleanup
  dsimp only
  split_ifs <;> simp only [cleanupFile_events, List.append_assoc] <;> exact ⟨_, rfl⟩

theorem compressPdf_events_mem (gsOk : Bool) (gsBytes : Bytes) (fs : FS)
    (evs : List Event) (inp out : String) :
    ∀ e ∈ (compressPdf gsOk gsBytes fs evs inp out).2,
      e ∈ evs ∨ e = Event.execGs inp out ∨ e = Event.copyFallback inp out := by
  unfold compressPdf
  cases gsOk <;> intro e he <;>
    simp only [Bool.false_eq_true, if_true, if_false, ite_true, ite_false,
      List.mem_append, List.mem_cons, List.not_mem_nil, or_false] at he <;>
    tauto

theorem compressPdf_fs_out (gsOk : Bool) (gsBytes : Bytes) (fs : FS)
    (evs : List Event) (inp out : String) :
    ((compressPdf gsOk gsBytes fs evs inp out).1 out).isSome = true := by
  unfold compressPdf
  cases gsOk <;> simp [fsWrite]

theorem compressPdf_events_prefix (gsOk : Bool) (gsBytes : Bytes) (fs : FS)
    (evs : List Event) (inp out : String) :
    ∃ cl, (compressPdf gsOk gsBytes fs evs inp out).2
      = evs ++ (Event.execGs inp out :: cl) := by
  cases gsOk <;> exact ⟨_, rfl⟩

theorem deliverAndCleanup_response (env : Env) (fs : FS) (evs : List Event)
    (inp lo tmp opt fin ptc base : String) :
    (deliverAndCleanup env fs evs inp lo tmp opt fin ptc base).response
      = Response.ok fin (base ++ ".pdf") := by
  unfold deliverAndCleanup
  cases env.downloadOk <;> rfl

theorem deliverAndCleanup_events_mem (env : Env) (fs : FS) (evs : List Event)
    (inp lo tmp opt fin ptc base : String) :
    ∀ e ∈ (deliverAndCleanup env fs evs inp lo tmp opt fin ptc base).events,
      e ∈ evs ∨ e = Event.execGs ptc fin ∨ e = Event.copyFallback ptc fin ∨
      (∃ p, e = Event.cleanup p) ∨ e = Event.download fin ∨
      e = Event.delayedCleanup fin := by
  intro e he
  unfold deliverAndCleanup at he
  rcases Bool.eq_false_or_eq_true env.downloadOk with hdl | hdl <;> rw [hdl] at he <;>
    simp only [Bool.false_eq_true, if_true, if_false, ite_true, ite_false,
      List.mem_append, List.mem_cons, List.not_mem_nil, or_false] at he
  · rcases he with (he | he) | he
    · rcases successCleanup_events_shape _ _ _ _ _ _ _ e he with h | h
      · rcases compressPdf_events_mem _ _ _ _ _ _ e h with h' | h' | h' <;> tauto
      · tauto
    · tauto
    · tauto
  · rcases he with he | he
    · rcases successCleanup_events_shape _ _ _ _ _ _ _ e he with h | h
      · rcases compressPdf_events_mem _ _ _ _ _ _ e h with h' | h' | h' <;> tauto
      · tauto
    · tauto

theorem deliverAndCleanup_has_execGs (env : Env) (fs : FS) (evs : List Event)
    (inp lo tmp opt fin ptc base : String) :
    Event.execGs ptc fin ∈
      (deliverAndCleanup env fs evs inp lo tmp opt fin ptc base).events := by
  obtain ⟨cl, hcl⟩ := successCleanup_events_prefix
    (compressPdf env.gsOk env.gsBytes fs evs ptc fin).1
    (compressPdf env.gsOk env.gsBytes fs evs ptc fin).2 inp lo tmp opt fin
  obtain ⟨cl2, hcl2⟩ := compressPdf_events_prefix env.gsOk env.gsBytes fs evs ptc fin
  unfold deliverAndCleanup
  rcases Bool.eq_false_or_eq_true env.downloadOk with hdl | hdl <;> rw [hdl] <;>
    · dsimp only
      rw [hcl, hcl2]
      simp

/-! ### The endpoint claims -/

/-- C4: a request carrying a file whose slidesPerPage parameter does not
parse to one of {1,2,3,4,6,9} is rejected with the 400-class error naming
the valid set; the only action taken is discarding the upload — no external
process (LibreOffice or Ghostscript) runs and no composition or
compression is invoked. -/
theorem convert_invalid_spp_rejected (env : Env) (req : Request) (f : FileUpload)
    (fs0 : FS) (hfile : req.file = some f)
    (hspp : isValidSpp (requestSpp req) = false) :
    (convertHandler env req fs0).response
      = Response.clientError "Invalid slidesPerPage. Must be 1, 2, 3, 4, 6, or 9." ∧
    (convertHandler env req fs0).events = [Event.cleanup f.path] ∧
    ∀ e ∈ (convertHandler env req fs0).events, ∃ p, e = Event.cleanup p := by
  have hred : (convertHandler env req fs0).response
        = Response.clientError "Invalid slidesPerPage. Must be 1, 2, 3, 4, 6, or 9." ∧
      (convertHandler env req fs0).events = [Event.cleanup f.path] := by
    unfold convertHandler
    rw [hfile, hspp]
    simp only [Bool.false_eq_true, if_true, if_false, ite_true, ite_false,
      cleanupFile_events, List.nil_append]
    refine ⟨?_, ?_⟩ <;> first | rfl | trivial
  refine ⟨hred.1, hred.2, ?_⟩
  intro e he
  rw [hred.2] at he
  simp only [List.mem_singleton] at he
  exact ⟨f.path, he⟩

/-- C4 witness: `slidesPerPage = "5"` is rejected before anything runs. -/
theorem convert_invalid_spp_rejected_witness :
    (sampleReq (some "5")).file
        = some { path := "uploads/u1", originalname := "Deck.pptx" } ∧
    isValidSpp (requestSpp (sampleReq (some "5"))) = false ∧
    ((convertHandler sampleEnv (sampleReq (some "5")) sampleFS).response
        = Response.clientError "Invalid slidesPerPage. Must be 1, 2, 3, 4, 6, or 9." ∧
      (convertHandler sampleEnv (sampleReq (some "5")) sampleFS).events
        = [Event.cleanup "uploads/u1"] ∧
      ∀ e ∈ (convertHandler sampleEnv (sampleReq (some "5")) sampleFS).events,
        ∃ p, e = Event.cleanup p) :=
  ⟨rfl, by decide,
    convert_invalid_spp_rejected sampleEnv (sampleReq (some "5"))
      { path := "uploads/u1", originalname := "Deck.pptx" } sampleFS rfl (by decide)⟩

/-- C5 (code bug): a job whose LibreOffice output was located under a
sanitized name (directory-scan fallback) and whose composition then fails
reaches the error response with the LibreOffice output never attempted for
deletion: the catch block cleans only input/temp/optimized/final paths, so
the located output leaks. -/
theorem catch_skips_libreoffice_output :
    (convertHandler envC5 reqC5 fsC5).response
      = Response.serverError "Failed to parse PDF document" ∧
    Event.cleanup "converted/Deck 2.pdf" ∉ (convertHandler envC5 reqC5 fsC5).events ∧
    (convertHandler envC5 reqC5 fsC5).fs "converted/Deck 2.pdf" = some [1, 2, 3] ∧
    Event.cleanup "uploads/x1" ∈ (convertHandler envC5 reqC5 fsC5).events := by
  exact ⟨by decide, by decide, by decide, by decide⟩

/-- C6: when Ghostscript fails, `compressPdf` leaves a byte-identical copy
of its input at the output path and resolves, and a job whose other stages
succeed still reaches the deliverable success response. -/
theorem compressPdf_fallback_safe :
    (∀ (gsBytes : Bytes) (fs : FS) (evs : List Event) (inp out : String) (b : Bytes),
      fs inp = some b →
      (compressPdf false gsBytes fs evs inp out).1 out = fs inp) ∧
    (∀ (env : Env) (req : Request) (f : FileUpload) (lo : String) (fs0 : FS),
      req.file = some f → isValidSpp (requestSpp req) = true →
      env.libreOk = true → env.foundOutput = some lo → env.mergeOk = true →
      env.gsOk = false →
      (convertHandler env req fs0).response
        = Response.ok ("converted/" ++ stripPptx f.originalname ++ ".pdf")
            (stripPptx f.originalname ++ ".pdf")) := by
  constructor
  · intro gsBytes fs evs inp out b hb
    unfold compressPdf
    simp [fsWrite, hb]
  · intro env req f lo fs0 hfile hspp hlibre hfound hmerge _
    unfold convertHandler
    rw [hfile, hspp, hlibre, hfound, hmerge]
    simp only [Bool.false_eq_true, if_true, if_false, ite_true, ite_false]
    split <;> exact deliverAndCleanup_response _ _ _ _ _ _ _ _ _ _

/-- C6 witness: concrete fallback copy and a concrete succeeding job with a
failing compressor. -/
theorem compressPdf_fallback_safe_witness :
    (sampleFS "uploads/u1" = some [9] ∧
      (compressPdf false [5] sampleFS [] "uploads/u1" "converted/out.pdf").1
          "converted/out.pdf" = sampleFS "uploads/u1") ∧
    ((sampleReq (some "4")).file
        = some { path := "uploads/u1", originalname := "Deck.pptx" } ∧
      isValidSpp (requestSpp (sampleReq (some "4"))) = true ∧
      ({ sampleEnv with gsOk := false } : Env).libreOk = true ∧
      ({ sampleEnv with gsOk := false } : Env).foundOutput = some "converted/Deck.pdf" ∧
      ({ sampleEnv with gsOk := false } : Env).mergeOk = true ∧
      ({ sampleEnv with gsOk := false } : Env).gsOk = false ∧
      (convertHandler { sampleEnv with gsOk := false } (sampleReq (some "4")) sampleFS).response
        = Response.ok ("converted/" ++ stripPptx "Deck.pptx" ++ ".pdf")
            (stripPptx "Deck.pptx" ++ ".pdf")) :=
  ⟨⟨rfl, compressPdf_fallback_safe.1 [5] sampleFS [] "uploads/u1" "converted/out.pdf"
      [9] rfl⟩,
    ⟨rfl, by decide, rfl, rfl, rfl, rfl,
      compressPdf_fallback_safe.2 { sampleEnv with gsOk := false } (sampleReq (some "4"))
        { path := "uploads/u1", originalname := "Deck.pptx" } "converted/Deck.pdf"
        sampleFS rfl (by decide) rfl rfl rfl rfl⟩⟩

/-- C9 counterexample: a job that reaches delivery and suffers a transfer
error never removes the final deliverable: the full event trace contains no
delayed cleanup of the final file, and the file is still present in the
final filesystem state. -/
theorem download_error_leaves_final_file :
    (convertHandler envC9 reqC9 fsC9).events
      = [Event.execLibre "uploads/x2" "converted",
          Event.execGs "converted/Deck.pdf" "converted/Deck.pdf",
          Event.cleanup "uploads/x2",
          Event.download "converted/Deck.pdf"] ∧
    (convertHandler envC9 reqC9 fsC9).fs "converted/Deck.pdf" = some [5] := by
  exact ⟨by decide, by decide⟩

/-- C9 amended: after the Delivering stage, only a successfully sent
response triggers removal of the final deliverable (the delayed cleanup
follows the download in the trace and the file is gone); on a transmission
error the code only logs — the final deliverable is not removed and no
delayed cleanup is scheduled. -/
theorem delivery_cleanup_success_only (env : Env) (fs : FS) (evs : List Event)
    (inp lo tmp opt fin ptc base : String)
    (hinp : ¬ inp = fin) (htmp : ¬ tmp = fin)
    (hevs : ∀ p, Event.delayedCleanup p ∉ evs) :
    (env.downloadOk = true →
      (deliverAndCleanup env fs evs inp lo tmp opt fin ptc base).fs fin = none ∧
      ∃ pre, (deliverAndCleanup env fs evs inp lo tmp opt fin ptc base).events
        = pre ++ [Event.download fin, Event.delayedCleanup fin]) ∧
    (env.downloadOk = false →
      ((deliverAndCleanup env fs evs inp lo tmp opt fin ptc base).fs fin).isSome = true ∧
      ∀ p, Event.delayedCleanup p ∉
        (deliverAndCleanup env fs evs inp lo tmp opt fin ptc base).events) := by
  constructor
  · intro hdl
    unfold deliverAndCleanup
    rw [hdl]
    simp only [Bool.false_eq_true, if_true, if_false, ite_true, ite_false]
    constructor
    · show fsErase _ fin fin = none
      simp [fsErase]
    · rw [List.append_assoc]
      exact ⟨_, rfl⟩
  · intro hdl
    unfold deliverAndCleanup
    rw [hdl]
    simp only [Bool.false_eq_true, if_true, if_false, ite_true, ite_false]
    constructor
    · rw [successCleanup_fs_fin _ _ _ _ _ _ _ hinp htmp]
      exact compressPdf_fs_out env.gsOk env.gsBytes fs evs ptc fin
    · intro p hp
      rcases List.mem_append.mp hp with h | h
      · rcases successCleanup_events_shape _ _ _ _ _ _ _ _ h with h' | h'
        · rcases compressPdf_events_mem _ _ _ _ _ _ _ h' with h'' | h'' | h''
          · exact hevs p h''
          · simp at h''
          · simp at h''
        · obtain ⟨q, hq⟩ := h'
          simp at hq
      · simp at h

/-- C9 amended witness: a successful transfer removes the final file after
the download event; hypotheses discharged at concrete paths. -/
theorem delivery_cleanup_success_only_witness :
    (¬ "uploads/u1" = "converted/Deck.pdf") ∧
    (¬ "converted/Deck_temp.pdf" = "converted/Deck.pdf") ∧
    ((sampleEnv.downloadOk = true →
      (deliverAndCleanup sampleEnv sampleFS [] "uploads/u1" "converted/LO.pdf"
          "converted/Deck_temp.pdf" "converted/Deck_optimized.pdf" "converted/Deck.pdf"
          "converted/LO.pdf" "Deck").fs "converted/Deck.pdf" = none ∧
      ∃ pre, (deliverAndCleanup sampleEnv sampleFS [] "uploads/u1" "converted/LO.pdf"
          "converted/Deck_temp.pdf" "converted/Deck_optimized.pdf" "converted/Deck.pdf"
          "converted/LO.pdf" "Deck").events
        = pre ++ [Event.download "converted/Deck.pdf",
            Event.delayedCleanup "converted/Deck.pdf"]) ∧
    (sampleEnv.downloadOk = false →
      ((deliverAndCleanup sampleEnv sampleFS [] "uploads/u1" "converted/LO.pdf"
          "converted/Deck_temp.pdf" "converted/Deck_optimized.pdf" "converted/Deck.pdf"
          "converted/LO.pdf" "Deck").fs "converted/Deck.pdf").isSome = true ∧
      ∀ p, Event.delayedCleanup p ∉
        (deliverAndCleanup sampleEnv sampleFS [] "uploads/u1" "converted/LO.pdf"
          "converted/Deck_temp.pdf" "converted/Deck_optimized.pdf" "converted/Deck.pdf"
          "converted/LO.pdf" "Deck").events)) :=
  ⟨by decide, by decide,
    delivery_cleanup_success_only sampleEnv sampleFS [] "uploads/u1" "converted/LO.pdf"
      "converted/Deck_temp.pdf" "converted/Deck_optimized.pdf" "converted/Deck.pdf"
      "converted/LO.pdf" "Deck" (by decide) (by decide)
      (fun p => List.not_mem_nil _)⟩

/-- C10: a request with a file and no slidesPerPage parameter in body or
query is treated as `slidesPerPage = 1`: validation passes, the composition
stage never runs, and the located LibreOffice output itself is the
compression input. -/
theorem convert_default_spp_one (env : Env) (req : Request) (f : FileUpload)
    (lo : String) (fs0 : FS) (hfile : req.file = some f)
    (hbody : req.bodySpp = none) (hquery : req.querySpp = none)
    (hlibre : env.libreOk = true) (hfound : env.foundOutput = some lo) :
    (convertHandler env req fs0).response
      = Response.ok ("converted/" ++ stripPptx f.originalname ++ ".pdf")
          (stripPptx f.originalname ++ ".pdf") ∧
    (∀ k, Event.merge k ∉ (convertHandler env req fs0).events) ∧
    Event.execGs lo ("converted/" ++ stripPptx f.originalname ++ ".pdf")
      ∈ (convertHandler env req fs0).events := by
  have hspp : requestSpp req = some 1 := by
    unfold requestSpp
    rw [hbody, hquery]
    rfl
  have hred : convertHandler env req fs0
      = deliverAndCleanup env (fsWrite fs0 lo env.libreBytes)
          [Event.execLibre f.path "converted"] f.path lo
          ("converted/" ++ stripPptx f.originalname ++ "_temp.pdf")
          ("converted/" ++ stripPptx f.originalname ++ "_optimized.pdf")
          ("converted/" ++ stripPptx f.originalname ++ ".pdf") lo
          (stripPptx f.originalname) := by
    unfold convertHandler
    rw [hfile, hspp, hlibre, hfound]
    rfl
  refine ⟨?_, ?_, ?_⟩
  · rw [hred]
    exact deliverAndCleanup_response _ _ _ _ _ _ _ _ _ _
  · intro k hk
    rw [hred] at hk
    rcases deliverAndCleanup_events_mem _ _ _ _ _ _ _ _ _ _ _ hk
      with h | h | h | h | h | h
    · simp at h
    · simp at h
    · simp at h
    · obtain ⟨p, hp⟩ := h
      simp at hp
    · simp at h
    · simp at h
  · rw [hred]
    exact deliverAndCleanup_has_execGs _ _ _ _ _ _ _ _ _ _

/-- C10 witness: a concrete request with the parameter absent everywhere. -/
theorem convert_default_spp_one_witness :
    (sampleReq none).file = some { path := "uploads/u1", originalname := "Deck.pptx" } ∧
    (sampleReq none).bodySpp = none ∧ (sampleReq none).querySpp = none ∧
    sampleEnv.libreOk = true ∧ sampleEnv.foundOutput = some "converted/Deck.pdf" ∧
    ((convertHandler sampleEnv (sampleReq none) sampleFS).response
        = Response.ok ("converted/" ++ stripPptx "Deck.pptx" ++ ".pdf")
            (stripPptx "Deck.pptx" ++ ".pdf") ∧
      (∀ k, Event.merge k ∉ (convertHandler sampleEnv (sampleReq none) sampleFS).events) ∧
      Event.execGs "converted/Deck.pdf" ("converted/" ++ stripPptx "Deck.pptx" ++ ".pdf")
        ∈ (convertHandler sampleEnv (sampleReq none) sampleFS).events) :=
  ⟨rfl, rfl, rfl, rfl, rfl,
    convert_default_spp_one sampleEnv (sampleReq none)
      { path := "uploads/u1", originalname := "Deck.pptx" } "converted/Deck.pdf"
      sampleFS rfl rfl rfl rfl rfl⟩

end PptToPdf
